import Mathlib

/-!
Shallow embedding of the question-cache core of the `python_quiz` repository
(files `app.py` and `main.py`; the Generator / Cache / Refill-Worker / Accessor
logic is line-for-line identical in the two entry points).

Modelling choices:
  * Text is represented as `List Char`; string literals enter statements via
    `String.data`.
  * `json.loads` is embedded as an executable recursive-descent function
    `jsonLoads` over the JSON grammar accepted by Python's `json` module
    (objects, arrays, strings with the standard escapes, numbers, `true`,
    `false`, `null`, with JSON whitespace).  Numbers keep their lexeme, since
    no record field is ever inspected numerically.  The Python-only extensions
    `NaN`/`Infinity` and surrogate-pair recombination for `\uXXXX` escapes are
    out of scope of the claims and omitted.
  * Python exceptions are explicit: fallible operations return sum types.
  * The external model client is an oracle value (`ClientResult`): it either
    raises with some message or returns a response text.
-/

namespace PythonQuiz

/-- JSON values as produced by `json.loads`.  An object is the insertion-order
list of its key/value pairs; `dictGet` below reproduces the
last-duplicate-wins lookup of a Python dict. -/
inductive JsonVal where
  | null : JsonVal
  | bool (b : Bool) : JsonVal
  | num (lexeme : List Char) : JsonVal
  | str (s : List Char) : JsonVal
  | arr (elems : List JsonVal) : JsonVal
  | obj (fields : List (List Char × JsonVal)) : JsonVal
deriving Repr

/-- Characters stripped by Python's `str.strip()` (the ASCII/Latin-1 whitespace
class of `str.isspace`). -/
def isPySpace (c : Char) : Bool :=
  " \t\n\r\x0b\x0c\x1c\x1d\x1e\x1f\x85\xa0".data.contains c

/-- Whitespace skipped by the JSON grammar. -/
def isJsonWs (c : Char) : Bool :=
  " \t\n\r".data.contains c

/-- Drop `p`-characters from both ends of a character list. -/
def trimBoth (p : Char → Bool) (l : List Char) : List Char :=
  (List.rdropWhile p l).dropWhile p

/-- Python `text.strip()`. -/
def pyStrip (l : List Char) : List Char :=
  trimBoth isPySpace l

/-- `if text.startswith("```json"): text = text[7:]` (app.py line 87). -/
def stripJsonFence (t : List Char) : List Char :=
  match t with
  | '`' :: '`' :: '`' :: 'j' :: 's' :: 'o' :: 'n' :: rest => rest
  | _ => t

/-- `if text.startswith("```"): text = text[3:]` (app.py line 89). -/
def stripOpenFence (t : List Char) : List Char :=
  match t with
  | '`' :: '`' :: '`' :: rest => rest
  | _ => t

/-- `if text.endswith("```"): text = text[:-3]` (app.py line 91). -/
def stripCloseFence (t : List Char) : List Char :=
  match t.reverse with
  | '`' :: '`' :: '`' :: rest => rest.reverse
  | _ => t

/-- The Markdown fence cleanup of `generar_pregunta`, lines 87-92 of app.py,
applied in source order. -/
def cleanFences (t : List Char) : List Char :=
  stripCloseFence (stripOpenFence (stripJsonFence t))

/-- Value of a hexadecimal digit, for `\uXXXX` escapes (code points of the
three digit ranges, offset to their values). -/
def hexVal (c : Char) : Option Nat :=
  let n := c.toNat
  if 48 ≤ n ∧ n ≤ 57 then some (n - 48)
  else if 97 ≤ n ∧ n ≤ 102 then some (n - 87)
  else if 65 ≤ n ∧ n ≤ 70 then some (n - 55)
  else none

/-- The two-character JSON string escapes. -/
def escChar : Char → Option Char
  | '"' => some '"'
  | '\\' => some '\\'
  | '/' => some '/'
  | 'b' => some (Char.ofNat 8)
  | 'f' => some (Char.ofNat 12)
  | 'n' => some '\n'
  | 'r' => some (Char.ofNat 13)
  | 't' => some '\t'
  | _ => none

/-- Body of a JSON string, after the opening quote; returns the decoded
characters and the remainder after the closing quote.  Fuel is the remaining
input length plus one, so exhaustion is unreachable. -/
def parseStrBody (fuel : Nat) (cs : List Char) : Except String (List Char × List Char) :=
  match fuel with
  | 0 => .error "Unterminated string"
  | fuel + 1 =>
    match cs with
    | [] => .error "Unterminated string starting at"
    | '"' :: rest => .ok ([], rest)
    | '\\' :: rest =>
      match rest with
      | [] => .error "Unterminated string starting at"
      | 'u' :: h1 :: h2 :: h3 :: h4 :: rest2 =>
        match hexVal h1, hexVal h2, hexVal h3, hexVal h4 with
        | some a, some b, some c, some d =>
          match parseStrBody fuel rest2 with
          | .ok (s, r) => .ok (Char.ofNat (((a * 16 + b) * 16 + c) * 16 + d) :: s, r)
          | .error e => .error e
        | _, _, _, _ => .error "Invalid \\uXXXX escape"
      | e :: rest2 =>
        match escChar e with
        | some c =>
          match parseStrBody fuel rest2 with
          | .ok (s, r) => .ok (c :: s, r)
          | .error er => .error er
        | none => .error "Invalid escape"
    | c :: rest =>
      if c.toNat < 32 then .error "Invalid control character"
      else
        match parseStrBody fuel rest with
        | .ok (s, r) => .ok (c :: s, r)
        | .error e => .error e

/-- Longest digit prefix and the remainder. -/
def takeDigits (cs : List Char) : List Char × List Char :=
  (cs.takeWhile Char.isDigit, cs.dropWhile Char.isDigit)

/-- Integer part of a JSON number: a single `0`, or a nonzero digit followed
by digits (the `(?:0|[1-9]\d*)` group of Python's number regex). -/
def intPart (cs : List Char) : Except String (List Char × List Char) :=
  match cs with
  | '0' :: rest => .ok (['0'], rest)
  | c :: _ => if c.isDigit then .ok (takeDigits cs) else .error "Expecting value"
  | [] => .error "Expecting value"

/-- Optional exponent group `[eE][+-]?\d+`; when the digits are missing the
group does not match and the input is left untouched, exactly like the
backtracking regex. -/
def expGroup (e : Char) (r : List Char) (orig : List Char) : List Char × List Char :=
  let (sgn, r1) :=
    match r with
    | '+' :: t => (['+'], t)
    | '-' :: t => (['-'], t)
    | _ => (([] : List Char), r)
  let (ds, r2) := takeDigits r1
  if ds.isEmpty then ([], orig) else (e :: (sgn ++ ds), r2)

/-- Optional fraction (`\.\d+`) and exponent groups of a JSON number. -/
def numFracExp (cs : List Char) : List Char × List Char :=
  let (frac, cs1) :=
    match cs with
    | '.' :: r =>
      let (ds, r2) := takeDigits r
      if ds.isEmpty then (([] : List Char), cs) else ('.' :: ds, r2)
    | _ => (([] : List Char), cs)
  match cs1 with
  | 'e' :: r =>
    let (ex, cs2) := expGroup 'e' r cs1
    (frac ++ ex, cs2)
  | 'E' :: r =>
    let (ex, cs2) := expGroup 'E' r cs1
    (frac ++ ex, cs2)
  | _ => (frac, cs1)

/-- A JSON number lexeme (sign, integer part, optional fraction/exponent). -/
def parseNumLex (cs : List Char) : Except String (List Char × List Char) :=
  match cs with
  | '-' :: cs1 =>
    match intPart cs1 with
    | .error e => .error e
    | .ok (ip, rest) =>
      let (fe, rest2) := numFracExp rest
      .ok ('-' :: (ip ++ fe), rest2)
  | _ =>
    match intPart cs with
    | .error e => .error e
    | .ok (ip, rest) =>
      let (fe, rest2) := numFracExp rest
      .ok (ip ++ fe, rest2)

mutual

/-- A JSON value, after skipping leading JSON whitespace.  Fuel bounds the
nesting depth; every recursive call consumes at least one character first, so
`length + 1` fuel never runs out (and if it did, the resulting `.error` mirrors
Python's `RecursionError`, which `generar_pregunta` also converts to an error
record). -/
def parseVal (fuel : Nat) (cs : List Char) : Except String (JsonVal × List Char) :=
  match fuel with
  | 0 => .error "Recursion limit exceeded"
  | fuel + 1 =>
    match cs.dropWhile isJsonWs with
    | [] => .error "Expecting value"
    | '"' :: rest =>
      match parseStrBody (rest.length + 1) rest with
      | .ok (s, r) => .ok (.str s, r)
      | .error e => .error e
    | '{' :: rest =>
      match rest.dropWhile isJsonWs with
      | '}' :: r2 => .ok (.obj [], r2)
      | _ =>
        match parseMember fuel rest with
        | .error e => .error e
        | .ok (kv, r2) =>
          match parseObjRest fuel r2 with
          | .error e => .error e
          | .ok (kvs, r3) => .ok (.obj (kv :: kvs), r3)
    | '[' :: rest =>
      match rest.dropWhile isJsonWs with
      | ']' :: r2 => .ok (.arr [], r2)
      | _ =>
        match parseVal fuel rest with
        | .error e => .error e
        | .ok (v, r2) =>
          match parseArrRest fuel r2 with
          | .error e => .error e
          | .ok (vs, r3) => .ok (.arr (v :: vs), r3)
    | 't' :: 'r' :: 'u' :: 'e' :: rest => .ok (.bool true, rest)
    | 'f' :: 'a' :: 'l' :: 's' :: 'e' :: rest => .ok (.bool false, rest)
    | 'n' :: 'u' :: 'l' :: 'l' :: rest => .ok (.null, rest)
    | c :: rest =>
      if c == '-' || c.isDigit then
        match parseNumLex (c :: rest) with
        | .ok (lex, r) => .ok (.num lex, r)
        | .error e => .error e
      else .error "Expecting value"

/-- One `"key": value` member of a JSON object. -/
def parseMember (fuel : Nat) (cs : List Char) :
    Except String ((List Char × JsonVal) × List Char) :=
  match fuel with
  | 0 => .error "Recursion limit exceeded"
  | fuel + 1 =>
    match cs.dropWhile isJsonWs with
    | '"' :: rest =>
      match parseStrBody (rest.length + 1) rest with
      | .error e => .error e
      | .ok (k, r1) =>
        match r1.dropWhile isJsonWs with
        | ':' :: r2 =>
          match parseVal fuel r2 with
          | .error e => .error e
          | .ok (v, r3) => .ok ((k, v), r3)
        | _ => .error "Expecting colon delimiter"
    | _ => .error "Expecting property name enclosed in double quotes"

/-- Remaining members of an object after the first one. -/
def parseObjRest (fuel : Nat) (cs : List Char) :
    Except String (List (List Char × JsonVal) × List Char) :=
  match fuel with
  | 0 => .error "Recursion limit exceeded"
  | fuel + 1 =>
    match cs.dropWhile isJsonWs with
    | '}' :: rest => .ok ([], rest)
    | ',' :: rest =>
      match parseMember fuel rest with
      | .error e => .error e
      | .ok (kv, r1) =>
        match parseObjRest fuel r1 with
        | .error e => .error e
        | .ok (kvs, r2) => .ok (kv :: kvs, r2)
    | _ => .error "Expecting comma delimiter"

/-- Remaining elements of an array after the first one. -/
def parseArrRest (fuel : Nat) (cs : List Char) :
    Except String (List JsonVal × List Char) :=
  match fuel with
  | 0 => .error "Recursion limit exceeded"
  | fuel + 1 =>
    match cs.dropWhile isJsonWs with
    | ']' :: rest => .ok ([], rest)
    | ',' :: rest =>
      match parseVal fuel rest with
      | .error e => .error e
      | .ok (v, r1) =>
        match parseArrRest fuel r1 with
        | .error e => .error e
        | .ok (vs, r2) => .ok (v :: vs, r2)
    | _ => .error "Expecting comma delimiter"

end

/-- `json.loads`: parse a complete JSON document, allowing surrounding
whitespace and rejecting trailing garbage. -/
def jsonLoads (cs : List Char) : Except String JsonVal :=
  let t := trimBoth isJsonWs cs
  match parseVal (t.length + 1) t with
  | .error e => .error e
  | .ok (v, rest) =>
    if (rest.dropWhile isJsonWs).isEmpty then .ok v else .error "Extra data"

/-- `dict.get(k)` on the dict built by `json.loads`: duplicate keys overwrite,
so the lookup takes the last binding; a missing key yields `none`. -/
def dictGet (fs : List (List Char × JsonVal)) (k : List Char) : Option JsonVal :=
  match fs.reverse.find? (fun kv => kv.1 == k) with
  | some kv => some kv.2
  | none => none

/-- The dict literal built at lines 100-106 of app.py.  A Python `dict.get`
miss and a JSON `null` value are both the Python value `None`, so both are
represented by `JsonVal.null` here; `respuestas` is always a Python list. -/
structure Pregunta where
  pregunta : JsonVal
  codigo : JsonVal
  respuestas : List JsonVal
  respuesta_correcta : JsonVal
  explicacion : JsonVal
deriving Repr

/-- Result of `generar_pregunta` when it returns: either the question dict or
the error dict `{"error": "No se pudo extraer el JSON", "detalle": str(e),
"texto": response.text}` of line 109. -/
inductive GenResult where
  | question (q : Pregunta) : GenResult
  | errorRec (detalle : String) (texto : List Char) : GenResult
deriving Repr

/-- Python `s.split(",")` on character lists (helper with accumulator). -/
def splitCommaAux : List Char → List Char → List (List Char)
  | [], acc => [acc.reverse]
  | ',' :: t, acc => acc.reverse :: splitCommaAux t []
  | c :: t, acc => splitCommaAux t (c :: acc)

/-- Python `s.split(",")`: split on every comma; the empty string yields
`[""]`. -/
def splitComma (cs : List Char) : List (List Char) :=
  splitCommaAux cs []

/-- Normalization of the `"Respuestas"` field, lines 95-99 of app.py: a string
is comma-split and each piece stripped; a list is kept; anything else
(including a missing key or JSON `null`) becomes the empty list. -/
def normRespuestas (fs : List (List Char × JsonVal)) : List JsonVal :=
  match dictGet fs "Respuestas".data with
  | some (.str s) => (splitComma s).map (fun r => JsonVal.str (pyStrip r))
  | some (.arr xs) => xs
  | _ => []

/-- The question dict of lines 100-106 of app.py, built from the parsed JSON
object. -/
def buildPregunta (fs : List (List Char × JsonVal)) : Pregunta where
  pregunta := (dictGet fs "Pregunta".data).getD JsonVal.null
  codigo := (dictGet fs "Codigo".data).getD JsonVal.null
  respuestas := normRespuestas fs
  respuesta_correcta := (dictGet fs "Respuesta correcta".data).getD JsonVal.null
  explicacion := (dictGet fs "Explicacion".data).getD (JsonVal.str [])

/-- Message of the `AttributeError` raised by `pregunta_json.get(...)` when
`json.loads` produced a non-dict value (the first statement of line 95 that
touches the parsed value). -/
def noGetMsg : JsonVal → String
  | .null => "NoneType object has no attribute get"
  | .bool _ => "bool object has no attribute get"
  | .num lex =>
    if lex.any (fun c => c == '.' || c == 'e' || c == 'E') then
      "float object has no attribute get"
    else "int object has no attribute get"
  | .str _ => "str object has no attribute get"
  | .arr _ => "list object has no attribute get"
  | .obj _ => ""

/-- Behaviour of the external model client on one call
(`client.models.generate_content`): it raises, or returns a response whose
`.text` is the given character list. -/
inductive ClientResult where
  | raises (msg : String) : ClientResult
  | returns (text : List Char) : ClientResult

/-- Outcome of calling `generar_pregunta`: it raises (the client call at lines
80-83 is outside the `try`, so a client exception propagates) or returns a
record. -/
inductive GenOutcome where
  | raised (msg : String) : GenOutcome
  | returned (r : GenResult) : GenOutcome
deriving Repr

/-- `generar_pregunta` (app.py lines 75-109): strip, clean Markdown fences,
`json.loads`, normalize `"Respuestas"`, build the question dict; any exception
inside the `try` (parse failure, or `.get` on a non-dict) becomes the error
dict carrying the exception message and the raw response text. -/
def generar_pregunta (resp : ClientResult) : GenOutcome :=
  match resp with
  | .raises m => .raised m
  | .returns t =>
    match jsonLoads (cleanFences (pyStrip t)) with
    | .error e => .returned (.errorRec e t)
    | .ok (.obj fs) => .returned (.question (buildPregunta fs))
    | .ok v => .returned (.errorRec (noGetMsg v) t)

/-- Keys of the Python dict underlying each record (the dict literals at lines
100-106 and line 109 of app.py). -/
def GenResult.keys : GenResult → List String
  | .question _ => ["pregunta", "codigo", "respuestas", "respuesta_correcta", "explicacion"]
  | .errorRec _ _ => ["error", "detalle", "texto"]

/-- Python `k in record` (dict key membership). -/
def GenResult.hasKey (r : GenResult) (k : String) : Bool :=
  r.keys.contains k

/-- The cache-admission guard of line 124 of app.py:
`isinstance(pregunta, dict) and 'pregunta' in pregunta and 'codigo' in
pregunta`.  Both branches of `generar_pregunta` return dicts, so the
`isinstance` conjunct is always true. -/
def esPreguntaValida (r : GenResult) : Bool :=
  r.hasKey "pregunta" && r.hasKey "codigo"

/-- Substring test, Python `pat in s`. -/
def containsSub (pat : List Char) : List Char → Bool
  | [] => pat.isEmpty
  | c :: rest => pat.isPrefixOf (c :: rest) || containsSub pat rest

/-- `CACHE_SIZE = 200` (app.py line 68). -/
def CACHE_SIZE : Nat := 200

/-- `CACHE_MIN = 100` (app.py line 69). -/
def CACHE_MIN : Nat := 100

/-- The quota-exhaustion marker searched for in error text (lines 129, 148). -/
def quotaMarker : List Char := "RESOURCE_EXHAUSTED".data

/-- What the refill worker decides to do with the generated result. -/
inductive WorkerAct where
  | enqueue (r : GenResult) : WorkerAct
  | skip : WorkerAct
deriving Repr

/-- One iteration of the `while True` loop of `precargar_preguntas` (app.py
lines 119-134), as a function of the observed `qsize()` and the client
behaviour: whether a record is enqueued, and how many seconds the iteration
sleeps.  The loop body never terminates the loop: every branch ends in a
sleep. -/
def precargar_iteracion (qsize : Nat) (resp : ClientResult) : WorkerAct × Nat :=
  if qsize < CACHE_MIN then
    match generar_pregunta resp with
    | .returned r => ((if esPreguntaValida r then .enqueue r else .skip), 1)
    | .raised m => (.skip, if containsSub quotaMarker m.data then 35 else 5)
  else (.skip, 2)

/-- The sentinel question dict of lines 149-155 of app.py. -/
def sentinelPregunta : Pregunta where
  pregunta := .str "¡Límite de uso alcanzado!".data
  codigo := .str []
  respuestas := []
  respuesta_correcta := .str []
  explicacion := .str "Se ha superado el límite de uso de la API. Por favor, espera un minuto y vuelve a intentarlo.".data

/-- `pregunta.get("detalle", "")` (line 148). -/
def GenResult.detalleGet : GenResult → String
  | .errorRec d _ => d
  | .question _ => ""

/-- Lines 148-156 of app.py applied to the record produced by the synchronous
fallback generation: a record with an `"error"` key whose `detalle` contains
the quota marker is replaced by the sentinel; anything else is returned
unchanged. -/
def filtrarFallback (p : GenResult) : GenResult :=
  if p.hasKey "error" && containsSub quotaMarker p.detalleGet.data then
    .question sentinelPregunta
  else p

/-- Outcome of the dequeue attempt `pregunta_cache.get(timeout=10)`: a record,
or the `queue.Empty` timeout. -/
inductive DequeueOutcome where
  | got (r : GenResult) : DequeueOutcome
  | timeout : DequeueOutcome

/-- Outcome of `obtener_pregunta_cache` as seen by its caller: a returned
record, or a propagated exception. -/
inductive ObtOutcome where
  | returned (r : GenResult) : ObtOutcome
  | raised (msg : String) : ObtOutcome
deriving Repr

/-- `obtener_pregunta_cache` (app.py lines 139-156), as a function of the
dequeue outcome and, when the dequeue times out, the client behaviour of the
synchronous fallback call.  The `try` covers only the dequeue, so an exception
raised by `generar_pregunta` (i.e. by the client call) propagates to the
caller. -/
def obtener_pregunta_cache (d : DequeueOutcome) (resp : ClientResult) : ObtOutcome :=
  match d with
  | .got r => .returned r
  | .timeout =>
    match generar_pregunta resp with
    | .raised m => .raised m
    | .returned p => .returned (filtrarFallback p)

/-- One step of the concurrent system around the shared
`pregunta_cache = queue.Queue(maxsize=CACHE_SIZE)`.  The state is the queue
content, oldest first.  `queue.Queue.put` blocks while the queue is full, so
the enqueue transition is enabled only when there is room; the worker's
`qsize() < CACHE_MIN` reading is a stale scheduling heuristic racing against
consumers, so the model lets the enqueue fire from any state with room (a
superset of the real interleavings).  Consumers only dequeue the oldest
record. -/
inductive Step : List GenResult → List GenResult → Prop where
  | worker_enqueue (s : List GenResult) (resp : ClientResult) (r : GenResult)
      (hgen : generar_pregunta resp = .returned r)
      (hvalid : esPreguntaValida r = true)
      (hroom : s.length < CACHE_SIZE) :
      Step s (s ++ [r])
  | consumer_dequeue (r : GenResult) (s : List GenResult) :
      Step (r :: s) s

/-- Cache states reachable from the initial empty queue under any interleaving
of worker enqueues and consumer dequeues. -/
inductive Reachable : List GenResult → Prop where
  | init : Reachable []
  | step {s s' : List GenResult} : Reachable s → Step s s' → Reachable s'

/-! ### Helper lemmas -/

/-- Dropping a trailing whitespace character and a leading one changes nothing
after trimming. -/
theorem trimBoth_wrap_nl {p : Char → Bool} (hp : p '\n' = true) (l : List Char) :
    trimBoth p ('\n' :: (l ++ ['\n'])) = trimBoth p l := by
  rw [trimBoth, ← List.cons_append, List.rdropWhile_concat_pos _ _ _ hp]
  rw [List.rdropWhile, List.reverse_cons, List.dropWhile_append]
  by_cases h : (List.dropWhile p l.reverse).isEmpty
  · simp [h, List.dropWhile_cons, hp, trimBoth, List.rdropWhile]
    rw [List.isEmpty_iff] at h
    simp [h]
  · simp [h, trimBoth, List.rdropWhile, List.dropWhile_cons, hp]

/-- A response text wrapped as ```` ```json\n...\n``` ```` has no surrounding
whitespace, so `str.strip()` leaves it unchanged. -/
def wrapJson (s : List Char) : List Char :=
  '`' :: '`' :: '`' :: 'j' :: 's' :: 'o' :: 'n' :: '\n' :: (s ++ ['\n', '`', '`', '`'])

/-- A response text wrapped in plain ```` ```\n...\n``` ```` fences. -/
def wrapPlain (s : List Char) : List Char :=
  '`' :: '`' :: '`' :: '\n' :: (s ++ ['\n', '`', '`', '`'])

theorem pyStrip_wrapJson (s : List Char) : pyStrip (wrapJson s) = wrapJson s := by
  have h2 : wrapJson s =
      ('`' :: '`' :: '`' :: 'j' :: 's' :: 'o' :: 'n' :: '\n' :: (s ++ ['\n', '`', '`'])) ++ ['`'] := by
    simp [wrapJson]
  rw [pyStrip, trimBoth, h2, List.rdropWhile_concat_neg _ _ _ (by decide)]
  simp only [List.cons_append, List.dropWhile_cons]
  simp [show isPySpace '`' = false from rfl]

theorem pyStrip_wrapPlain (s : List Char) : pyStrip (wrapPlain s) = wrapPlain s := by
  have h2 : wrapPlain s =
      ('`' :: '`' :: '`' :: '\n' :: (s ++ ['\n', '`', '`'])) ++ ['`'] := by
    simp [wrapPlain]
  rw [pyStrip, trimBoth, h2, List.rdropWhile_concat_neg _ _ _ (by decide)]
  simp only [List.cons_append, List.dropWhile_cons]
  simp [show isPySpace '`' = false from rfl]

theorem stripCloseFence_nl (l : List Char) :
    stripCloseFence ('\n' :: (l ++ ['\n', '`', '`', '`'])) = '\n' :: (l ++ ['\n']) := by
  rw [stripCloseFence]
  rw [(show ('\n' :: (l ++ ['\n', '`', '`', '`'])).reverse
      = '`' :: '`' :: '`' :: '\n' :: (l.reverse ++ ['\n']) by simp)]
  simp

theorem cleanFences_wrapJson (s : List Char) :
    cleanFences (wrapJson s) = '\n' :: (s ++ ['\n']) := by
  have h1 : stripJsonFence (wrapJson s) = '\n' :: (s ++ ['\n', '`', '`', '`']) := rfl
  have h2 : stripOpenFence ('\n' :: (s ++ ['\n', '`', '`', '`'])) =
      '\n' :: (s ++ ['\n', '`', '`', '`']) := rfl
  rw [cleanFences, h1, h2, stripCloseFence_nl]

theorem cleanFences_wrapPlain (s : List Char) :
    cleanFences (wrapPlain s) = '\n' :: (s ++ ['\n']) := by
  have h1 : stripJsonFence (wrapPlain s) = wrapPlain s := rfl
  have h2 : stripOpenFence (wrapPlain s) = '\n' :: (s ++ ['\n', '`', '`', '`']) := rfl
  rw [cleanFences, h1, h2, stripCloseFence_nl]

/-- `json.loads` only depends on the input up to surrounding JSON
whitespace. -/
theorem jsonLoads_trim_eq {x y : List Char}
    (h : trimBoth isJsonWs x = trimBoth isJsonWs y) : jsonLoads x = jsonLoads y := by
  simp only [jsonLoads]
  rw [h]

theorem jsonLoads_nl_wrap (s : List Char) :
    jsonLoads ('\n' :: (s ++ ['\n'])) = jsonLoads s :=
  jsonLoads_trim_eq (trimBoth_wrap_nl rfl s)

/-- The admission guard of line 124 accepts exactly the question-shaped
records: both branches return dicts, the question dict has the `pregunta` and
`codigo` keys, and the error dict has neither. -/
theorem esPreguntaValida_iff (r : GenResult) :
    esPreguntaValida r = true ↔ ∃ q, r = GenResult.question q := by
  cases r with
  | question q => exact ⟨fun _ => ⟨q, rfl⟩, fun _ => rfl⟩
  | errorRec d t =>
    constructor
    · intro h
      simp [show esPreguntaValida (.errorRec d t) = false from rfl] at h
    · rintro ⟨q, hq⟩
      cases hq

/-- Every record in a reachable cache state is a question record: the guard
`hvalid` of the enqueue transition filters out error records. -/
theorem cache_records_are_questions {s : List GenResult} (hs : Reachable s) :
    ∀ r ∈ s, ∃ q, r = GenResult.question q := by
  induction hs with
  | init => intro r hr; cases hr
  | step _ hstep ih =>
    cases hstep with
    | worker_enqueue s resp rr hgen hvalid hroom =>
      intro r hr
      rcases List.mem_append.1 hr with h | h
      · exact ih r h
      · have hrr : r = rr := List.mem_singleton.1 h
        subst hrr
        exact (esPreguntaValida_iff r).1 hvalid
    | consumer_dequeue x t =>
      intro r hr
      exact ih r (List.mem_cons_of_mem x hr)

/-- `generar_pregunta` returns a record for every response text: everything
after the client call sits inside the `try`, whose `except` returns the error
dict. -/
theorem generar_nunca_lanza (t : List Char) :
    ∃ r, generar_pregunta (.returns t) = .returned r := by
  simp only [generar_pregunta]
  rcases h : jsonLoads (cleanFences (pyStrip t)) with e | v
  · exact ⟨_, rfl⟩
  · cases v <;> exact ⟨_, rfl⟩

/-- The record produced from the response text `{}`: every `dict.get` misses,
so all scalar fields are Python `None` and the answers default to `[]`. -/
def preguntaVacia : Pregunta :=
  ⟨.null, .null, [], .null, .str []⟩

theorem generar_vacia :
    generar_pregunta (.returns "\x7b\x7d".data) = .returned (.question preguntaVacia) := rfl

/-- A one-element cache state reachable by a single worker enqueue of the
record parsed from `{}`. -/
theorem reachable_one : Reachable [GenResult.question preguntaVacia] :=
  Reachable.step Reachable.init
    (Step.worker_enqueue [] (.returns "\x7b\x7d".data) _ generar_vacia rfl (by decide))

/-! ### Claim theorems -/

/-- C1: For every reachable interleaving of the refill worker's enqueues and
concurrent consumer dequeues, the cache size stays at most `CACHE_SIZE`
(200); and from a full cache no enqueue can fire (`queue.Queue.put` blocks),
so the only possible transition is a dequeue, which shrinks the buffer. -/
theorem C1_cache_bounded :
    (∀ s, Reachable s → s.length ≤ CACHE_SIZE) ∧
    (∀ s s', s.length = CACHE_SIZE → Step s s' → s'.length = CACHE_SIZE - 1) := by
  constructor
  · intro s hs
    induction hs with
    | init => simp [CACHE_SIZE]
    | step _ hstep ih =>
      cases hstep with
      | worker_enqueue s resp r hgen hvalid hroom =>
        simp only [List.length_append, List.length_singleton]
        omega
      | consumer_dequeue x t =>
        simp only [List.length_cons] at ih
        omega
  · intro s s' hfull hstep
    cases hstep with
    | worker_enqueue s resp r hgen hvalid hroom =>
      rw [hfull] at hroom
      omega
    | consumer_dequeue x t =>
      simp only [List.length_cons] at hfull
      omega

/-- C1 witness: the initial state is reachable and within capacity, and a full
cache of 200 records steps only to a 199-record cache. -/
theorem C1_cache_bounded_witness :
    ([] : List GenResult).length ≤ CACHE_SIZE ∧
    (List.replicate 199 (GenResult.question preguntaVacia)).length = CACHE_SIZE - 1 :=
  ⟨C1_cache_bounded.1 [] Reachable.init,
   C1_cache_bounded.2 (List.replicate 200 (GenResult.question preguntaVacia))
     (List.replicate 199 (GenResult.question preguntaVacia))
     (by rw [List.length_replicate, CACHE_SIZE])
     (Step.consumer_dequeue _ _)⟩

/-- C2 counterexample: the claim that `obtener_pregunta_cache` returns a
QuestionRecord for every client behaviour is false on the code.  The `try`
covers only the dequeue, so when the fallback client call raises (e.g. a quota
error) the exception propagates to the caller; and when the client returns
unparseable text with no quota marker, the raw error record is returned. -/
theorem C2_obtener_counterexample :
    obtener_pregunta_cache .timeout (.raises "429 RESOURCE_EXHAUSTED") =
      .raised "429 RESOURCE_EXHAUSTED" ∧
    obtener_pregunta_cache .timeout (.returns "oops".data) =
      .returned (.errorRec "Expecting value" "oops".data) :=
  ⟨rfl, rfl⟩

/-- C2 amended: a record dequeued within the timeout is returned as-is; if the
dequeue times out and the fallback client call returns a response,
`obtener_pregunta_cache` returns normally (a quota-marked error record is
replaced by the sentinel, any other error record is returned to the caller
unchanged); but if the client call itself raises, the exception propagates out
of `obtener_pregunta_cache`. -/
theorem C2_obtener_amended :
    (∀ r resp, obtener_pregunta_cache (.got r) resp = .returned r) ∧
    (∀ t, ∃ r, obtener_pregunta_cache .timeout (.returns t) = .returned r) ∧
    (∀ d t, containsSub quotaMarker d.data = false →
      filtrarFallback (.errorRec d t) = .errorRec d t) ∧
    (∀ m, obtener_pregunta_cache .timeout (.raises m) = .raised m) := by
  refine ⟨fun r resp => rfl, fun t => ?_, fun d t h => ?_, fun m => rfl⟩
  · obtain ⟨r, hr⟩ := generar_nunca_lanza t
    exact ⟨filtrarFallback r, by simp [obtener_pregunta_cache, hr]⟩
  · simp [filtrarFallback, GenResult.hasKey, GenResult.keys, GenResult.detalleGet, h]

/-- C2 amended witness: concrete instances of the amended behaviours. -/
theorem C2_obtener_amended_witness :
    filtrarFallback (.errorRec "Expecting value" "oops".data) =
      .errorRec "Expecting value" "oops".data :=
  C2_obtener_amended.2.2.1 "Expecting value" "oops".data rfl

/-- C3: if the dequeue times out and the synchronous fallback generation
yields an error record whose detail contains the quota marker, the accessor
returns exactly the fixed sentinel question record: usage-limit prompt, empty
code, empty options, empty correct answer, and the wait-a-minute explanation —
never the raw error text. -/
theorem C3_quota_sentinel :
    (∀ d t, containsSub quotaMarker d.data = true →
      filtrarFallback (GenResult.errorRec d t) = .question
        ⟨.str "¡Límite de uso alcanzado!".data, .str [], [], .str [],
         .str "Se ha superado el límite de uso de la API. Por favor, espera un minuto y vuelve a intentarlo.".data⟩) ∧
    (∀ resp p, generar_pregunta resp = .returned p →
      obtener_pregunta_cache .timeout resp = .returned (filtrarFallback p)) := by
  constructor
  · intro d t h
    simp [filtrarFallback, GenResult.hasKey, GenResult.keys, GenResult.detalleGet, h,
      sentinelPregunta]
  · intro resp p h
    simp [obtener_pregunta_cache, h]

/-- C3 witness: a quota-marked error record is rewritten to the sentinel, and
the timeout path goes through the fallback filter. -/
theorem C3_quota_sentinel_witness :
    filtrarFallback (GenResult.errorRec "429 RESOURCE_EXHAUSTED: quota exceeded" []) =
      .question
        ⟨.str "¡Límite de uso alcanzado!".data, .str [], [], .str [],
         .str "Se ha superado el límite de uso de la API. Por favor, espera un minuto y vuelve a intentarlo.".data⟩ ∧
    obtener_pregunta_cache .timeout (.returns "oops".data) =
      .returned (filtrarFallback (.errorRec "Expecting value" "oops".data)) :=
  ⟨C3_quota_sentinel.1 "429 RESOURCE_EXHAUSTED: quota exceeded" [] rfl,
   C3_quota_sentinel.2 (.returns "oops".data) (.errorRec "Expecting value" "oops".data) rfl⟩

/-- C4 counterexample: the claim that a record is enqueued only when prompt and
code are populated is false.  The response `{}` parses to a question dict whose
`pregunta` and `codigo` values are both `None`, yet the guard of line 124 only
checks key presence, so the worker enqueues it. -/
theorem C4_guard_counterexample :
    generar_pregunta (.returns "\x7b\x7d".data) = .returned (.question preguntaVacia) ∧
    preguntaVacia.pregunta = JsonVal.null ∧
    preguntaVacia.codigo = JsonVal.null ∧
    esPreguntaValida (.question preguntaVacia) = true ∧
    precargar_iteracion 0 (.returns "\x7b\x7d".data) =
      (.enqueue (.question preguntaVacia), 1) :=
  ⟨rfl, rfl, rfl, rfl, rfl⟩

/-- C4 amended: in a refilling iteration the generated result is enqueued if
and only if it is a question-shaped record (the guard checks the presence of
the `pregunta` and `codigo` keys, which every question dict has — even with
null values — and no error dict has); consequently an error record is never
enqueued and no reachable cache state contains one. -/
theorem C4_enqueue_iff :
    (∀ qsize resp r, qsize < CACHE_MIN →
      ((precargar_iteracion qsize resp).1 = .enqueue r ↔
        generar_pregunta resp = .returned r ∧ ∃ q, r = GenResult.question q)) ∧
    (∀ s, Reachable s → ∀ r ∈ s, ∃ q, r = GenResult.question q) := by
  constructor
  · intro qsize resp r hq
    simp only [precargar_iteracion, if_pos hq]
    rcases hgen : generar_pregunta resp with m | rr
    · simp
    · by_cases hv : esPreguntaValida rr = true
      · obtain ⟨q, hq2⟩ := (esPreguntaValida_iff rr).1 hv
        subst hq2
        simp [hv]
        intro h
        exact ⟨q, h.symm⟩
      · rw [Bool.not_eq_true] at hv
        simp [hv]
        rintro rfl q hq2
        rw [(esPreguntaValida_iff rr).2 ⟨q, hq2⟩] at hv
        cases hv
  · exact fun s hs => cache_records_are_questions hs

/-- C4 amended witness: the `{}` record is enqueued at a concrete iteration,
and the singleton reachable state contains only question records. -/
theorem C4_enqueue_iff_witness :
    (precargar_iteracion 0 (ClientResult.returns "\x7b\x7d".data)).1 =
      WorkerAct.enqueue (.question preguntaVacia) ∧
    ∃ q, GenResult.question preguntaVacia = GenResult.question q :=
  ⟨(C4_enqueue_iff.1 0 (.returns "\x7b\x7d".data) (.question preguntaVacia) (by decide)).2
      ⟨generar_vacia, preguntaVacia, rfl⟩,
   C4_enqueue_iff.2 _ reachable_one _ (List.mem_singleton.2 rfl)⟩

/-- C5: for every response text whose cleaned form is not valid JSON — and
more generally whenever parsing or record construction fails with an exception
(including `.get` on a parsed non-dict value) — `generar_pregunta` returns an
error record carrying the exception message and the raw response text, and
never raises to its caller. -/
theorem C5_parse_failure :
    (∀ t e, jsonLoads (cleanFences (pyStrip t)) = .error e →
      generar_pregunta (.returns t) = .returned (.errorRec e t)) ∧
    (∀ t v, jsonLoads (cleanFences (pyStrip t)) = .ok v → (∀ fs, v ≠ JsonVal.obj fs) →
      generar_pregunta (.returns t) = .returned (.errorRec (noGetMsg v) t)) ∧
    (∀ t, ∃ r, generar_pregunta (.returns t) = .returned r) := by
  refine ⟨fun t e h => ?_, fun t v h hv => ?_, generar_nunca_lanza⟩
  · simp [generar_pregunta, h]
  · cases v with
    | obj fs => exact absurd rfl (hv fs)
    | null => simp [generar_pregunta, h]
    | bool b => simp [generar_pregunta, h]
    | num lex => simp [generar_pregunta, h]
    | str s => simp [generar_pregunta, h]
    | arr xs => simp [generar_pregunta, h]

/-- C5 witness: a non-JSON response and a valid-JSON non-object response both
become error records with the message and the raw text. -/
theorem C5_parse_failure_witness :
    generar_pregunta (.returns "no es json".data) =
      .returned (.errorRec "Expecting value" "no es json".data) ∧
    generar_pregunta (.returns "[1]".data) =
      .returned (.errorRec "list object has no attribute get" "[1]".data) :=
  ⟨C5_parse_failure.1 "no es json".data "Expecting value" rfl,
   C5_parse_failure.2.1 "[1]".data (JsonVal.arr [JsonVal.num ['1']]) rfl
     (fun _ h => JsonVal.noConfusion h)⟩

/-- C6: for every valid model response — a JSON object — the five record
fields map 1:1 from the five JSON keys with content preserved exactly, and a
missing key maps to null (for the three scalar `dict.get` fields), to the
empty list (for the answers) or to the empty string (for the explanation). -/
theorem C6_field_mapping :
    ∀ t fs, jsonLoads (cleanFences (pyStrip t)) = .ok (.obj fs) →
      generar_pregunta (.returns t) = .returned (.question (buildPregunta fs)) ∧
      (∀ v, dictGet fs "Pregunta".data = some v → (buildPregunta fs).pregunta = v) ∧
      (∀ v, dictGet fs "Codigo".data = some v → (buildPregunta fs).codigo = v) ∧
      (∀ xs, dictGet fs "Respuestas".data = some (.arr xs) →
        (buildPregunta fs).respuestas = xs) ∧
      (∀ v, dictGet fs "Respuesta correcta".data = some v →
        (buildPregunta fs).respuesta_correcta = v) ∧
      (∀ v, dictGet fs "Explicacion".data = some v → (buildPregunta fs).explicacion = v) ∧
      (dictGet fs "Pregunta".data = none → (buildPregunta fs).pregunta = JsonVal.null) ∧
      (dictGet fs "Codigo".data = none → (buildPregunta fs).codigo = JsonVal.null) ∧
      (dictGet fs "Respuestas".data = none → (buildPregunta fs).respuestas = []) ∧
      (dictGet fs "Respuesta correcta".data = none →
        (buildPregunta fs).respuesta_correcta = JsonVal.null) ∧
      (dictGet fs "Explicacion".data = none →
        (buildPregunta fs).explicacion = JsonVal.str []) := by
  intro t fs h
  refine ⟨by simp [generar_pregunta, h], fun v hv => ?_, fun v hv => ?_, fun xs hv => ?_,
    fun v hv => ?_, fun v hv => ?_, fun hv => ?_, fun hv => ?_, fun hv => ?_,
    fun hv => ?_, fun hv => ?_⟩
  · simp [buildPregunta, hv]
  · simp [buildPregunta, hv]
  · simp [buildPregunta, normRespuestas, hv]
  · simp [buildPregunta, hv]
  · simp [buildPregunta, hv]
  · simp [buildPregunta, hv]
  · simp [buildPregunta, hv]
  · simp [buildPregunta, normRespuestas, hv]
  · simp [buildPregunta, hv]
  · simp [buildPregunta, hv]

/-- A full well-formed model response and its parsed field list, used as
concrete instances. -/
def respuestaModelo : List Char :=
  "\x7b\"Pregunta\": \"q\", \"Codigo\": \"c\", \"Respuestas\": [\"A\",\"B\",\"C\",\"D\"], \"Respuesta correcta\": \"B\", \"Explicacion\": \"e\"\x7d".data

def camposModelo : List (List Char × JsonVal) :=
  [("Pregunta".data, .str "q".data), ("Codigo".data, .str "c".data),
   ("Respuestas".data, .arr [.str "A".data, .str "B".data, .str "C".data, .str "D".data]),
   ("Respuesta correcta".data, .str "B".data), ("Explicacion".data, .str "e".data)]

/-- C6 witness: the five fields of a concrete full response map across
exactly. -/
theorem C6_field_mapping_witness :
    generar_pregunta (.returns respuestaModelo) =
      .returned (.question (buildPregunta camposModelo)) ∧
    (buildPregunta camposModelo).pregunta = .str "q".data ∧
    (buildPregunta camposModelo).respuestas =
      [.str "A".data, .str "B".data, .str "C".data, .str "D".data] ∧
    (buildPregunta camposModelo).respuesta_correcta = .str "B".data :=
  ⟨(C6_field_mapping respuestaModelo camposModelo rfl).1,
   (C6_field_mapping respuestaModelo camposModelo rfl).2.1 (.str "q".data) rfl,
   (C6_field_mapping respuestaModelo camposModelo rfl).2.2.2.1
     [.str "A".data, .str "B".data, .str "C".data, .str "D".data] rfl,
   (C6_field_mapping respuestaModelo camposModelo rfl).2.2.2.2.1 (.str "B".data) rfl⟩

/-- C7: each refill-worker iteration sleeps exactly one of four durations:
2 s when the observed size is at least `CACHE_MIN`; 1 s when it is below and
the generation attempt returns (enqueued or not); 35 s when the generation
call raises with the quota marker in the error text; 5 s when it raises
without it.  The last conjunct shows the iteration always ends in one of the
four sleeps — the loop never terminates on an error. -/
theorem C7_sleep_tiers :
    ∀ qsize resp,
      (CACHE_MIN ≤ qsize → precargar_iteracion qsize resp = (.skip, 2)) ∧
      (qsize < CACHE_MIN → ∀ r, generar_pregunta resp = .returned r →
        (precargar_iteracion qsize resp).2 = 1) ∧
      (qsize < CACHE_MIN → ∀ m, generar_pregunta resp = .raised m →
        containsSub quotaMarker m.data = true → (precargar_iteracion qsize resp).2 = 35) ∧
      (qsize < CACHE_MIN → ∀ m, generar_pregunta resp = .raised m →
        containsSub quotaMarker m.data = false → (precargar_iteracion qsize resp).2 = 5) ∧
      ((precargar_iteracion qsize resp).2 = 1 ∨ (precargar_iteracion qsize resp).2 = 2 ∨
       (precargar_iteracion qsize resp).2 = 5 ∨ (precargar_iteracion qsize resp).2 = 35) := by
  intro qsize resp
  refine ⟨fun h => ?_, fun h r hr => ?_, fun h m hm hq => ?_, fun h m hm hq => ?_, ?_⟩
  · simp [precargar_iteracion, Nat.not_lt.2 h]
  · simp [precargar_iteracion, h, hr]
  · simp [precargar_iteracion, h, hm, hq]
  · simp [precargar_iteracion, h, hm, hq]
  · by_cases h : qsize < CACHE_MIN
    · rcases hg : generar_pregunta resp with m | r
      · by_cases hq : containsSub quotaMarker m.data = true <;>
          simp [precargar_iteracion, h, hg, hq]
      · simp [precargar_iteracion, h, hg]
    · simp [precargar_iteracion, h]

/-- C7 witness: the four tiers at concrete sizes and client behaviours. -/
theorem C7_sleep_tiers_witness :
    precargar_iteracion 150 (.returns "\x7b\x7d".data) = (.skip, 2) ∧
    (precargar_iteracion 50 (.returns "\x7b\x7d".data)).2 = 1 ∧
    (precargar_iteracion 50 (.raises "429 RESOURCE_EXHAUSTED")).2 = 35 ∧
    (precargar_iteracion 50 (.raises "boom")).2 = 5 :=
  ⟨(C7_sleep_tiers 150 (.returns "\x7b\x7d".data)).1 (by decide),
   (C7_sleep_tiers 50 (.returns "\x7b\x7d".data)).2.1 (by decide) _ generar_vacia,
   (C7_sleep_tiers 50 (.raises "429 RESOURCE_EXHAUSTED")).2.2.1 (by decide) _ rfl rfl,
   (C7_sleep_tiers 50 (.raises "boom")).2.2.2.1 (by decide) _ rfl rfl⟩

/-- C8: for a JSON object payload that is itself unfenced and has no
surrounding whitespace (the hypotheses state that stripping and fence removal
leave it unchanged), `generar_pregunta` applied to the payload wrapped in
Markdown code fences — the ```` ```json ```` variant or the plain ```` ``` ````
variant, each on its own lines — returns the same result as applied to the
bare payload: the cleanup removes exactly the fence markers and the inner JSON
parses identically. -/
theorem C8_fence_unwrap :
    ∀ s fs, pyStrip s = s → stripJsonFence s = s → stripOpenFence s = s →
      stripCloseFence s = s → jsonLoads s = .ok (.obj fs) →
      jsonLoads (cleanFences (pyStrip (wrapJson s))) = jsonLoads s ∧
      jsonLoads (cleanFences (pyStrip (wrapPlain s))) = jsonLoads s ∧
      generar_pregunta (.returns (wrapJson s)) = generar_pregunta (.returns s) ∧
      generar_pregunta (.returns (wrapPlain s)) = generar_pregunta (.returns s) := by
  intro s fs h1 h2 h3 h4 h5
  have hwj : jsonLoads (cleanFences (pyStrip (wrapJson s))) = jsonLoads s := by
    rw [pyStrip_wrapJson, cleanFences_wrapJson, jsonLoads_nl_wrap]
  have hwp : jsonLoads (cleanFences (pyStrip (wrapPlain s))) = jsonLoads s := by
    rw [pyStrip_wrapPlain, cleanFences_wrapPlain, jsonLoads_nl_wrap]
  have hs : cleanFences (pyStrip s) = s := by
    rw [h1, cleanFences, h2, h3, h4]
  refine ⟨hwj, hwp, ?_, ?_⟩
  · simp only [generar_pregunta]
    rw [hwj, hs, h5]
  · simp only [generar_pregunta]
    rw [hwp, hs, h5]

/-- C8 witness: a concrete object payload parses and generates identically
with and without each fence wrapping. -/
theorem C8_fence_unwrap_witness :
    generar_pregunta (.returns (wrapJson "\x7b\"a\": 1\x7d".data)) =
      generar_pregunta (.returns "\x7b\"a\": 1\x7d".data) ∧
    generar_pregunta (.returns (wrapPlain "\x7b\"a\": 1\x7d".data)) =
      generar_pregunta (.returns "\x7b\"a\": 1\x7d".data) :=
  ⟨(C8_fence_unwrap "\x7b\"a\": 1\x7d".data [("a".data, .num ['1'])] rfl rfl rfl rfl rfl).2.2.1,
   (C8_fence_unwrap "\x7b\"a\": 1\x7d".data [("a".data, .num ['1'])] rfl rfl rfl rfl rfl).2.2.2⟩

/-- C9: the answers field is normalized: a comma-joined string is split on
commas and each piece stripped (so `"A, B, C, D"` becomes
`["A","B","C","D"]`); a value that is neither string nor list becomes the
empty sequence, as does a missing key; and in no case is the record rejected
for this alone — a parsed object always yields an enqueued-shape question
record carrying the normalized answers. -/
theorem C9_respuestas_normalization :
    (∀ fs s, dictGet fs "Respuestas".data = some (.str s) →
      normRespuestas fs = (splitComma s).map (fun r => JsonVal.str (pyStrip r))) ∧
    ((splitComma "A, B, C, D".data).map (fun r => JsonVal.str (pyStrip r)) =
      [.str "A".data, .str "B".data, .str "C".data, .str "D".data]) ∧
    (∀ fs v, dictGet fs "Respuestas".data = some v →
      (∀ s, v ≠ JsonVal.str s) → (∀ xs, v ≠ JsonVal.arr xs) → normRespuestas fs = []) ∧
    (∀ fs, dictGet fs "Respuestas".data = none → normRespuestas fs = []) ∧
    (∀ t fs, jsonLoads (cleanFences (pyStrip t)) = .ok (.obj fs) →
      generar_pregunta (.returns t) = .returned (.question (buildPregunta fs)) ∧
      (buildPregunta fs).respuestas = normRespuestas fs) := by
  refine ⟨fun fs s h => ?_, rfl, fun fs v h hs ha => ?_, fun fs h => ?_,
    fun t fs h => ⟨by simp [generar_pregunta, h], rfl⟩⟩
  · simp [normRespuestas, h]
  · cases v with
    | str s => exact absurd rfl (hs s)
    | arr xs => exact absurd rfl (ha xs)
    | null => simp [normRespuestas, h]
    | bool b => simp [normRespuestas, h]
    | num lex => simp [normRespuestas, h]
    | obj fs2 => simp [normRespuestas, h]
  · simp [normRespuestas, h]

/-- C9 witness: the concrete comma-joined string normalizes to the four
answers. -/
theorem C9_respuestas_normalization_witness :
    normRespuestas [("Respuestas".data, JsonVal.str "A, B, C, D".data)] =
      [.str "A".data, .str "B".data, .str "C".data, .str "D".data] :=
  (C9_respuestas_normalization.1 [("Respuestas".data, JsonVal.str "A, B, C, D".data)]
      "A, B, C, D".data rfl).trans C9_respuestas_normalization.2.1

/-- C10: every record that ever resides in the cache is a question-shaped dict
with exactly the five keys `pregunta`, `codigo`, `respuestas`,
`respuesta_correcta`, `explicacion`; its `respuestas` is always a Python list
and its `explicacion` always present (both facts are encoded in the type of
`Pregunta`, whose `respuestas` field is a `List` and whose `explicacion`
field always exists); and the shape invariant indeed tolerates records whose
`pregunta`, `codigo` and `respuesta_correcta` values are null, which are
reachable in the cache. -/
theorem C10_cache_shape :
    (∀ s, Reachable s → ∀ r ∈ s, (∃ q, r = GenResult.question q) ∧
      r.keys = ["pregunta", "codigo", "respuestas", "respuesta_correcta", "explicacion"]) ∧
    (∃ s q, Reachable s ∧ GenResult.question q ∈ s ∧
      q.pregunta = JsonVal.null ∧ q.codigo = JsonVal.null ∧
      q.respuesta_correcta = JsonVal.null) := by
  constructor
  · intro s hs r hr
    obtain ⟨q, hq⟩ := cache_records_are_questions hs r hr
    subst hq
    exact ⟨⟨q, rfl⟩, rfl⟩
  · exact ⟨[GenResult.question preguntaVacia], preguntaVacia, reachable_one,
      List.mem_singleton.2 rfl, rfl, rfl, rfl⟩

/-- C10 witness: the concrete reachable singleton state has the five-key
shape. -/
theorem C10_cache_shape_witness :
    GenResult.keys (GenResult.question preguntaVacia) =
      ["pregunta", "codigo", "respuestas", "respuesta_correcta", "explicacion"] :=
  (C10_cache_shape.1 [GenResult.question preguntaVacia] reachable_one
      (GenResult.question preguntaVacia) (List.mem_singleton.2 rfl)).2

end PythonQuiz
